import Mathlib

/-!
Verification of the session-orchestration core of the GenAIGenesis
accessibility web-browsing agent (src/summarize.py) against its
natural-language specification.

The Python module is shallowly embedded:
* external effects (the Gemini `model.generate_content` calls and the
  Playwright page renderer) are oracles packaged in an `Env` value;
* the mutable fields of `FastWebSummarizer` (`link_history`,
  `current_title`, `bookmarks`) become an explicit state record that is
  threaded through the functions;
* Python exceptions become `Except` values; every `try/except` of the
  source is an explicit `match` on that value;
* Python `dict`s become insertion-ordered association lists.

Because the wall clock and the remote page can change between renders,
the renderer oracle is indexed by a render counter held in the state:
each page load consumes the next renderer, which lets the model express
"the underlying page content changed between two visits".
-/

namespace GenAI

/-!
Python `str` methods, modelled structurally on the character list (the
library's `String.trim`, `String.toLower`, ... are defined by
well-founded recursion on byte positions and do not reduce inside the
kernel, which the concrete witnesses below need).
-/

/-- Python substring test `pat in s` (contiguous substring). -/
def strContains (s pat : String) : Bool :=
  s.toList.tails.any (fun t => pat.toList.isPrefixOf t)

/-- Python `str.lower()`. -/
def pyLower (s : String) : String :=
  String.mk (s.toList.map Char.toLower)

/-- Python `str.upper()`. -/
def pyUpper (s : String) : String :=
  String.mk (s.toList.map Char.toUpper)

/-- Python `str.strip()` (whitespace from both ends). -/
def pyTrim (s : String) : String :=
  String.mk (((s.toList.dropWhile Char.isWhitespace).reverse.dropWhile
    Char.isWhitespace).reverse)

/-- Python `s[:n]` (character slicing). -/
def pyTake (s : String) (n : Nat) : String :=
  String.mk (s.toList.take n)

/-- Python `len(s)`. -/
def pyLen (s : String) : Nat :=
  s.toList.length

/-- Python `s.startswith(p)`. -/
def pyStartsWith (s p : String) : Bool :=
  p.toList.isPrefixOf s.toList

/-- Split a character list at a separator character. -/
def splitOnChar (sep : Char) : List Char → List (List Char)
  | [] => [[]]
  | c :: cs =>
    let rest := splitOnChar sep cs
    if c = sep then [] :: rest
    else
      match rest with
      | r :: rs => (c :: r) :: rs
      | [] => [[c]]

/-- Python `str.splitlines()` restricted to `\n` separators, as used on
the gathered page text. -/
def pySplitLines (s : String) : List String :=
  (splitOnChar (Char.ofNat 10) s.toList).map String.mk

/-- The double-quote character. -/
def dquote : Char := Char.ofNat 34

/-- The single-quote character. -/
def squote : Char := Char.ofNat 39

/-- Python `str.strip(c)`: drop the character `c` from both ends. -/
def stripChar (s : String) (c : Char) : String :=
  String.mk (((s.toList.dropWhile (· = c)).reverse.dropWhile (· = c)).reverse)

/-- The cleanup `.strip().strip(dquote).strip(squote)` applied to the
navigation-match completion output in `_match_user_intent`. -/
def cleanNavMatch (s : String) : String :=
  stripChar (stripChar (pyTrim s) dquote) squote

/-- Python truthiness of an optional string (`None` and `""` are falsy). -/
def truthy : Option String → Bool
  | none => false
  | some s => s ≠ ""

/-- Insertion-ordered string-keyed map, modelling a Python `dict`:
overwriting an existing key keeps its position, a new key is appended. -/
abbrev NavMap := List (String × String)

/-- Keys of a dict, in insertion order (`list(d.keys())`). -/
def dkeys (m : List (α × β)) : List α := m.map (·.1)

/-- Dict membership test (`k in d`). -/
def dmem [DecidableEq α] (m : List (α × β)) (k : α) : Bool :=
  m.any (·.1 = k)

/-- Dict lookup (`d[k]`), `none` when the key is absent (a `KeyError`). -/
def dlookup [DecidableEq α] (m : List (α × β)) (k : α) : Option β :=
  (m.find? (·.1 = k)).map (·.2)

/-- Dict update `d[k] = v`: overwrite in place, or append a new pair. -/
def dinsert [DecidableEq α] (m : List (α × β)) (k : α) (v : β) : List (α × β) :=
  if dmem m k then m.map (fun p => if p.1 = k then (k, v) else p)
  else m ++ [(k, v)]

/-- Python list "repr" of a list of keys, as interpolated into prompts
(`{list(d.keys())}` renders as `['a', 'b']`). -/
def pyKeysRepr (ks : List String) : String :=
  "[" ++ String.intercalate ", "
    (ks.map (fun k => String.mk [squote] ++ k ++ String.mk [squote])) ++ "]"

/-- A `model.generate_content` response object: `text` is its `.text`
field, `srepr` its `str()` rendering (the object itself, which the
source sometimes interpolates or compares instead of `.text`). -/
structure GenResponse where
  text : String
  srepr : String
  deriving Repr, DecidableEq

/-- `urlparse`-based URL test `is_url` (src/summarize.py line 412):
the scheme must be http, https or www and the netloc non-empty.  The
embedding reads the scheme as the lowercased text before "://" and the
netloc as the text after it up to the first `/`, `?` or `#`, which
agrees with `urllib.parse.urlparse` on every scheme-and-netloc form. -/
def is_url (s : String) : Bool :=
  ["http", "https", "www"].any fun sch =>
    pyStartsWith (pyLower s) (sch ++ "://") &&
    String.mk (((s.toList.drop (pyLen sch + 3)).takeWhile
      (fun c => c ≠ '/' && c ≠ '?' && c ≠ '#'))) ≠ ""

/-- The exit-word set of `_match_user_intent`. -/
def exitWords : List String := ["quit", "exit", "bye", "goodbye", "stop", "end"]

/-- The back-word set of `_match_user_intent`. -/
def backWords : List String := ["back", "previous"]

/-- `any(word in user_input.lower() for word in ws)`. -/
def hasKeyword (user_input : String) (ws : List String) : Bool :=
  ws.any fun w => strContains (pyLower user_input) w

/-- The classification prompt of `_match_user_intent` (the fixed text is
abbreviated; only its identity as a distinct oracle key matters). -/
def classifyPrompt (user_input : String) (available_options : NavMap) : String :=
  "Given this user input: " ++ String.mk [dquote] ++ user_input ++ String.mk [dquote]
    ++ " Classify the intent. Available navigation options: "
    ++ pyKeysRepr (dkeys available_options)
    ++ " Return EXACTLY one of: INFO_REQUEST, NAVIGATION, BOOKMARK, LIST_BOOKMARKS, GO_TO_BOOKMARK, SWITCH_WEBSITE, or NONE"

/-- The second, label-constrained prompt of `_match_user_intent`. -/
def navPrompt (user_input : String) (available_options : NavMap) : String :=
  "Given these available navigation options: " ++ pyKeysRepr (dkeys available_options)
    ++ " User said: " ++ String.mk [dquote] ++ user_input ++ String.mk [dquote]
    ++ " Which option are they most likely trying to navigate to?"

/-- `_match_user_intent` (src/summarize.py lines 363-410).  `gen` is the
`model.generate_content` capability; a `.error` models a raised
exception, which the source's `try/except` turns into `None`. -/
def matchUserIntent (gen : String → Except String GenResponse)
    (user_input : String) (available_options : NavMap) : Option String :=
  if hasKeyword user_input exitWords then some "EXIT"
  else if hasKeyword user_input backWords then some "BACK"
  else
    match gen (classifyPrompt user_input available_options) with
    | .error _ => none
    | .ok resp =>
      let intent := pyUpper (pyTrim resp.text)
      if intent = "INFO_REQUEST" then some "INFO_REQUEST"
      else if intent = "NAVIGATION" then
        match gen (navPrompt user_input available_options) with
        | .error _ => none
        | .ok nresp =>
          let m := cleanNavMatch nresp.text
          if dmem available_options m then some m else none
      else if intent ∈ (["BOOKMARK", "LIST_BOOKMARKS", "GO_TO_BOOKMARK", "SWITCH_WEBSITE"] : List String)
      then some intent
      else none

/-! ## The page renderer and `quick_extract` -/

/-- A DOM element handle as seen by `quick_extract`: the outcomes of
`element.text_content()`, `element.get_attribute('href')` and of the
nav-stripping `page.evaluate(.., element)` call.  `.error` models a
raised exception or a timeout; `.ok none` a `None`/null result. -/
structure Element where
  textRes : Except String (Option String)
  hrefRes : Except String (Option String)
  evalRes : Except String (Option String)

/-- One loaded-page behaviour of the Playwright session: outcomes of
browser startup, `goto`, `title()`, `query_selector_all` and
`query_selector`.  `.error` models a raised exception or a timeout. -/
structure Renderer where
  browserRes : Except String Unit
  gotoRes : Except String Unit
  titleRes : Except String String
  queryAll : String → Except String (List Element)
  queryOne : String → Except String (Option Element)

/-- `_safe_extract` (src/summarize.py lines 72-77): value on success,
the default on timeout or exception. -/
def safeExtract (e : Except String α) (default : α) : α :=
  match e with
  | .ok v => v
  | .error _ => default

/-- `_safe_extract` with default `None`, flattening an optional value. -/
def safeExtractO (e : Except String (Option α)) : Option α :=
  match e with
  | .ok v => v
  | .error _ => none

/-- `_extract_elements` (src/summarize.py lines 164-175): query all
elements of a selector (an exception yields `[]`), run the extractor on
each under `_safe_extract`, and keep the truthy results. -/
def extractElements (r : Renderer) (selector : String)
    (f : Element → Except String (Option α)) (truthyA : α → Bool) : List α :=
  match r.queryAll selector with
  | .error _ => []
  | .ok els => els.filterMap fun el =>
      match safeExtractO (f el) with
      | some a => if truthyA a then some a else none
      | none => none

/-- `urljoin(url, href)`: an absolute href is kept, a root-relative one
is joined to the base's scheme-and-host part, anything else is appended.
(Only the absolute and root-relative cases occur in practice; no claim
depends on the joined value.) -/
def urljoin (base href : String) : String :=
  if strContains href "://" then href
  else if pyStartsWith href "/" then
    (match (splitOnChar ':' base.toList).map String.mk with
     | s :: rest :: _ => s ++ "://" ++ String.mk ((rest.toList.drop 2).takeWhile (· ≠ '/'))
     | _ => base) ++ href
  else base ++ href

/-- `QuickPageContent` (src/summarize.py lines 36-42). -/
structure QuickPageContent where
  title : String
  main_links : NavMap
  main_headings : List String
  quick_summary : String
  deriving Repr, DecidableEq

/-- The nav-link extractor closure `extract_link` of `quick_extract`:
`(text.strip(), href)` when text and href are truthy and the stripped
text is under 50 characters, else `None`. -/
def extract_link (el : Element) : Except String (Option (String × String)) := do
  let text ← el.textRes
  let href ← el.hrefRes
  pure (match text, href with
    | some t, some h =>
      if t ≠ "" && h ≠ "" && pyLen (pyTrim t) < 50 then some (pyTrim t, h) else none
    | _, _ => none)

/-- The heading extractor closure `extract_heading` of `quick_extract`. -/
def extract_heading (el : Element) : Except String (Option String) := do
  let text ← el.textRes
  pure (match text with
    | some t => if t ≠ "" && pyTrim t ≠ "" then some (pyTrim t) else none
    | none => none)

/-- The paragraph extractor closure `extract_paragraph` of
`quick_extract`'s fallback. -/
def extract_paragraph (el : Element) : Except String (Option String) := do
  let text ← el.textRes
  pure (match text with
    | some t => if t ≠ "" && pyLen (pyTrim t) > 50 then some (pyTrim t) else none
    | none => none)

/-- The nav-selector list of `quick_extract`. -/
def navSelectors : List String :=
  ["nav a[href]", "header a[href]", "#nav-main a[href]", ".nav-links a[href]"]

/-- The content-selector list of `quick_extract`. -/
def contentSelectors : List String :=
  ["main", "article", "#content", ".content", "[role=\"main\"]",
   ".main-content", "#main-content", "section:first-of-type",
   ".page-content", "[data-testid=\"content\"]"]

/-- The nav-link accumulation loop of `quick_extract` (lines 196-208):
per selector, take at most `MAX_LINKS` extracted pairs and store the
truthy ones as `main_links[text] = urljoin(url, href)`. -/
def navLinksOf (r : Renderer) (url : String) : NavMap :=
  navSelectors.foldl
    (fun acc selector =>
      let links := (extractElements r selector extract_link (fun _ => true)).take 10
      links.foldl
        (fun acc p =>
          if p.1 ≠ "" && p.2 ≠ "" then dinsert acc p.1 (urljoin url p.2) else acc)
        acc)
    []

/-- The main-content selector loop of `quick_extract` (lines 226-242):
`query_selector` is *not* wrapped in `_safe_extract`, so its exception
propagates (to the function-level handler); a found element's evaluated
text is kept when longer than `MIN_CONTENT_LENGTH` after stripping. -/
def contentLoop (r : Renderer) : List String → Except String String
  | [] => .ok ""
  | selector :: rest =>
    match r.queryOne selector with
    | .error e => .error e
    | .ok none => contentLoop r rest
    | .ok (some el) =>
      match safeExtractO el.evalRes with
      | some t =>
        if t ≠ "" && pyLen (pyTrim t) > 50 then .ok (pyTake (pyTrim t) 500)
        else contentLoop r rest
      | none => contentLoop r rest

/-- The body of `quick_extract`'s `try` block (lines 179-258).  Only
browser startup and the content `query_selector` calls can raise; every
other sub-extraction degrades to its default. -/
def quickExtractBody (r : Renderer) (url : String) : Except String QuickPageContent := do
  let _ ← r.browserRes
  -- goto result is discarded; _safe_extract swallows its failure
  let _ := safeExtract r.gotoRes ()
  let title := safeExtract r.titleRes "Unknown Title"
  let main_links := navLinksOf r url
  let main_headings := (extractElements r "h1, h2" extract_heading (fun s => s ≠ "")).take 3
  let qs ← contentLoop r contentSelectors
  let quick_summary :=
    if qs = "" then
      let paragraphs := extractElements r "p" extract_paragraph (fun s => s ≠ "")
      pyTake (String.intercalate " " (paragraphs.take 3)) 500
    else qs
  pure ⟨title, main_links, main_headings, quick_summary⟩

/-- `quick_extract` (src/summarize.py lines 177-267): the `except`
handler converts any raise into the fixed "Could not load page"
digest, so the operation itself never raises. -/
def quickExtract (r : Renderer) (url : String) : QuickPageContent :=
  match quickExtractBody r url with
  | .ok d => d
  | .error _ => ⟨"Could not load page", [], [], ""⟩

/-- `_build_quick_prompt` (lines 270-278; fixed text abbreviated). -/
def buildQuickPrompt (c : QuickPageContent) : String :=
  "Given this webpage content: Title: " ++ c.title
    ++ " Main Headings: " ++ String.intercalate " | " c.main_headings
    ++ " Brief Content: " ++ pyTake c.quick_summary 300
    ++ " Provide a clear, concise 1-2 sentence summary."

/-- `quick_summarize` (lines 280-289) for one renderer behaviour: run
`quick_extract`, one generation call on the digest prompt; its handler
returns the fixed pair on any raise.  There is no cache of any kind. -/
def quickSummarizeWith (gen : String → Except String GenResponse)
    (r : Renderer) (url : String) : String × NavMap :=
  let content := quickExtract r url
  match gen (buildQuickPrompt content) with
  | .ok resp => (pyTrim resp.text, content.main_links)
  | .error _ => ("Could not generate summary", [])

/-! ## `get_specific_info` -/

/-- The content-selector list of `get_specific_info` (lines 126-131). -/
def infoSelectors : List String :=
  ["main", "article", "#content", ".content", "[role=\"main\"]",
   ".main-content", "#main-content", "section", ".page-content",
   "[data-testid=\"content\"]", "body"]

/-- First generation prompt of `_extract_specific_info` (abbreviated). -/
def infoPromptA (context query : String) : String :=
  "Webpage content:\n" ++ context ++ "\nUser query: " ++ query
    ++ "\n\nBased on the above content, extract and summarize the relevant information."

/-- Second (cleanup) generation prompt of `_extract_specific_info`
(abbreviated). -/
def infoPromptB (query raw : String) : String :=
  "Given this information about " ++ query ++ ":\n" ++ raw
    ++ "\n\nPlease rewrite this in a clear, natural way."

/-- `_extract_specific_info` (lines 79-111): trims the text, issues two
chained generation calls; its own handler turns any raise into an
"Error processing content" string. -/
def extractSpecificInfo (gen : String → Except String GenResponse)
    (text : String) (query : String) (default : String) : String :=
  if text = "" then default
  else
    let cleaned := String.intercalate "\n"
      (((pySplitLines text).map pyTrim).filter (· ≠ ""))
    let context := pyTake cleaned 15000
    match gen (infoPromptA context query) with
    | .error e => "Error processing content: " ++ e
    | .ok r1 =>
      match gen (infoPromptB query r1.text) with
      | .error e => "Error processing content: " ++ e
      | .ok r2 => pyTrim r2.text

/-- `get_specific_info` (lines 113-162).  The `query_selector_all`
calls are unprotected, so their exceptions reach the function-level
handler; each `text_content` is under `_safe_extract` with default "".
The url argument only reaches the (swallowed) `goto` call. -/
def getSpecificInfo (gen : String → Except String GenResponse)
    (r : Renderer) (_url : Option String) (query : String) : String :=
  let body : Except String String := do
    let _ ← r.browserRes
    let _ := safeExtract r.gotoRes ()
    let all_content ← infoSelectors.foldlM
      (fun (acc : List String) selector => do
        let els ← r.queryAll selector
        pure <| els.foldl
          (fun acc el =>
            let text : Option String :=
              match el.textRes with
              | .ok v => v
              | .error _ => some ""
            match text with
            | some t => if t ≠ "" && pyLen (pyTrim t) > 50 then acc ++ [pyTrim t] else acc
            | none => acc)
          acc)
      []
    let combined := String.intercalate "\n\n" all_content
    if combined = "" then
      pure "Could not find any content on the page to analyze."
    else
      pure (extractSpecificInfo gen combined query
        "Could not find specific information about your query.")
  match body with
  | .ok s => s
  | .error _ => "Could not extract specific information due to an error."

/-! ## Session state and the orchestrator `agent_response` -/

/-- The mutable session fields of `FastWebSummarizer` (lines 59-61),
plus `renders`, the model's clock: the index of the next renderer
behaviour to be consumed (the remote page may change between loads). -/
structure Summarizer where
  link_history : List String
  current_title : Option String
  bookmarks : List (Option String × String)
  renders : Nat
  deriving Repr, DecidableEq

/-- The external world of a session: the generation capability and the
page-renderer behaviour at each successive page load. -/
structure Env where
  gen : String → Except String GenResponse
  renderer : Nat → Renderer

/-- Stateful `quick_summarize`: consume the next renderer behaviour. -/
def quickSummarizeS (env : Env) (st : Summarizer) (url : String) :
    Summarizer × String × NavMap :=
  let res := quickSummarizeWith env.gen (env.renderer st.renders) url
  ({ st with renders := st.renders + 1 }, res.1, res.2)

/-- Stateful `get_specific_info`: consume the next renderer behaviour. -/
def getSpecificInfoS (env : Env) (st : Summarizer) (url : Option String)
    (query : String) : Summarizer × String :=
  ({ st with renders := st.renders + 1 },
   getSpecificInfo env.gen (env.renderer st.renders) url query)

/-- The response dictionary `{"summary": text}` a turn returns. -/
structure RespDict where
  summary : String
  deriving Repr, DecidableEq

/-- `str()` of an optional bookmark title (`None` renders as "None"). -/
def pyOptStr : Option String → String
  | none => "None"
  | some s => s

/-- Python repr of `dict_keys` over the bookmark titles, as interpolated
into the GO_TO_BOOKMARK title prompt. -/
def pyBookmarkKeysRepr (m : List (Option String × String)) : String :=
  "dict_keys([" ++ String.intercalate ", "
    (m.map fun p =>
      match p.1 with
      | none => "None"
      | some s => String.mk [squote] ++ s ++ String.mk [squote]) ++ "])"

/-- The GO_TO_BOOKMARK title prompt (lines 459-460; abbreviated). -/
def bkTitlePrompt (user_input : String) (bkms : List (Option String × String)) : String :=
  "If the user wants to go to a title that is in our bookmarks, return it exactly. User input: "
    ++ user_input ++ " Our bookmark titles: " ++ pyBookmarkKeysRepr bkms

/-- The SWITCH_WEBSITE name-extraction prompt (lines 474-475). -/
def websitePrompt (user_input : String) : String :=
  "Extract the website name from this request: " ++ user_input
    ++ " Return ONLY the website name, nothing else."

/-- The `find_website` URL prompt (lines 550-555; few-shot text
abbreviated). -/
def sitePrompt (promptText : String) : String :=
  "Find a relevant website URL for this prompt: " ++ promptText
    ++ " Return ONLY the URL, nothing else."

/-- The `find_website` title prompt (line 574; abbreviated). -/
def fwTitlePrompt (url summary : String) : String :=
  "Extract the title of the webpage by taking commonality of url and summary: "
    ++ url ++ " " ++ summary

/-- The membership test `title in summarizer.bookmarks` of the
GO_TO_BOOKMARK branch (line 463): the source compares the raw
`generate_content` *response object* (not its `.text`) against the
string-or-None bookmark keys, so it is identically false. -/
def respInBookmarks (_ : List (Option String × String)) (_ : GenResponse) : Bool :=
  false

/-- The fixed apology of `agent_response`'s catch-all handler. -/
def turnApology : String := "Sorry, I encountered an error processing your request."

/-- The trailing options block of `agent_response` (lines 528-536).
When `current_nav_options` is truthy and the *text* contains the
substring "summary" (the source tests `"summary" in current_summary`
on a plain string), the source then evaluates
`current_summary["summary"]`, indexing a `str` with a `str`: a
`TypeError`, modelled as a raise carrying the mutated state.  In every
other case the block does nothing and the turn returns the text. -/
def appendOptionsBlock (st : Summarizer) (current_summary : String)
    (current_nav_options : NavMap) (new_url : Option String) :
    Except Summarizer (Summarizer × RespDict × Option String) :=
  if !current_nav_options.isEmpty && strContains current_summary "summary" then
    .error st
  else
    .ok (st, ⟨current_summary⟩, new_url)

/-- The shared tail of every turn: run the trailing options block and
convert its raise into the catch-all apology response. -/
def finalize (st : Summarizer) (cs : String) (nav : NavMap) (nu : Option String) :
    Summarizer × RespDict × Option String :=
  match appendOptionsBlock st cs nav nu with
  | .ok r => r
  | .error st' => (st', ⟨turnApology⟩, none)

/-- The URL branch of `agent_response` (lines 423-428) together with the
trailing options block and the catch-all handler; this is the whole of
`agent_response` whenever `is_url(user_input)` holds. -/
def urlTurn (env : Env) (st : Summarizer) (user_input : String) :
    Summarizer × RespDict × Option String :=
  let new_url := user_input
  let st := { st with link_history := st.link_history ++ [new_url] }
  let (st, summary, links) := quickSummarizeS env st new_url
  finalize st summary links (some new_url)

/-- `find_website` (lines 546-584).  Returns (state, summary text,
url, on_startup).  Its own handler converts any raise into
`("Error: e", "", True)`; when the candidate URL is valid it delegates
to `agent_response` — necessarily the URL branch, i.e. `urlTurn` — and
afterwards derives and stores `current_title`. -/
def findWebsite (env : Env) (st : Summarizer) (promptText : String) :
    Summarizer × String × Option String × Bool :=
  match env.gen (sitePrompt promptText) with
  | .error e => (st, "Error: " ++ e, some "", true)
  | .ok resp =>
    let url := pyTrim resp.text
    if ¬ is_url url then (st, "Could not find a valid website", some "", true)
    else
      let (st, summary_dict, new_url) := urlTurn env st url
      -- `if not summary_dict or "summary" not in summary_dict` never
      -- holds: agent_response always returns a dict with that key.
      match env.gen (fwTitlePrompt url summary_dict.summary) with
      | .error e => (st, "Error: " ++ e, some "", true)
      | .ok titleResp =>
        let st := { st with current_title := some (pyTrim titleResp.text) }
        (st, summary_dict.summary, new_url, false)

/-- The pre-dispatch step of the non-URL branch (lines 430-440): fetch
the current top of history and re-summarize it to refresh the
navigation labels.  `if new_url:` is Python truthiness, so a `""`
history entry counts as no page.  (The summary text this step computes
is overwritten on every dispatch path of the source.) -/
def preDispatch (env : Env) (st : Summarizer) : Summarizer × String × NavMap :=
  if truthy st.link_history.getLast? then
    quickSummarizeS env st (st.link_history.getLast?.getD "")
  else
    (st, "No webpage loaded yet. Please provide a URL or search for a website.",
     ([] : NavMap))

/-- The dispatch `elif` chain of `agent_response` (lines 444-526) on the
resolved `matched_option`; `.error` carries the state at an uncaught
raise, which the catch-all handler turns into the apology. -/
def dispatch (env : Env) (st : Summarizer) (user_input : String)
    (new_url0 : Option String) (current_nav_options : NavMap)
    (matched : Option String) :
    Except Summarizer (Summarizer × String × NavMap × Option String) :=
    if matched = some "EXIT" then
      .ok (st, "Alright, hope that was helpful!", current_nav_options, new_url0)
    else if matched = some "BOOKMARK" then
      if ¬ truthy new_url0 then
        .ok (st, "No page to bookmark!", current_nav_options, new_url0)
      else
        .ok ({ st with bookmarks := dinsert st.bookmarks st.current_title (new_url0.getD "") },
             "Bookmark saved!", current_nav_options, new_url0)
    else if matched = some "LIST_BOOKMARKS" then
      if ¬ st.bookmarks.isEmpty then
        .ok (st, "Your bookmarks:\n" ++ String.intercalate "\n"
              (st.bookmarks.map fun p => "- " ++ pyOptStr p.1 ++ ": " ++ p.2),
             current_nav_options, new_url0)
      else
        .ok (st, "You don't have any bookmarks yet.", current_nav_options, new_url0)
    else if matched = some "GO_TO_BOOKMARK" then
      -- this generate_content call is not under any inner try: a raise
      -- reaches the catch-all handler
      match env.gen (bkTitlePrompt user_input st.bookmarks) with
      | .error _ => .error st
      | .ok titleResp =>
        if respInBookmarks st.bookmarks titleResp then
          -- unreachable: were it reached, `bookmarks[title]` would raise
          .error st
        else
          .ok (st, "Couldn't find a bookmark for " ++ String.mk [squote]
                ++ titleResp.srepr ++ String.mk [squote],
               current_nav_options, new_url0)
    else if matched = some "SWITCH_WEBSITE" then
      -- inner try/except around the whole branch
      match env.gen (websitePrompt user_input) with
      | .error _ =>
        .ok (st, "Sorry, I couldn't switch to that website. Please try again.",
             current_nav_options, new_url0)
      | .ok wresp =>
        let website_name := pyTrim wresp.text
        let (st, summary, fw_url, on_startup) := findWebsite env st website_name
        if ¬ on_startup && truthy fw_url then
          let u := fw_url.getD ""
          let (st, _, links) := quickSummarizeS env st u
          let st := { st with link_history := st.link_history ++ [u] }
          .ok (st, summary, links, fw_url)
        else
          .ok (st, "Couldn't find a website for " ++ String.mk [squote]
                ++ website_name ++ String.mk [squote],
               current_nav_options, fw_url)
    else if matched = some "BACK" then
      if st.link_history.length > 1 then
        let previous_url := st.link_history.getD (st.link_history.length - 2) ""
        let (st, s, links) := quickSummarizeS env st previous_url
        .ok (st, s, links, some previous_url)
      else
        .ok (st, "You're already on the first page!", current_nav_options, new_url0)
    else if matched = some "INFO_REQUEST" then
      let (st, info) := getSpecificInfoS env st new_url0 user_input
      .ok (st, "Here's what I found:\n" ++ info
            ++ "\n\nI can help you in two ways:\n1. Navigate to a section: "
            ++ String.intercalate ", " (dkeys current_nav_options)
            ++ "\n2. Ask another question about this page",
           current_nav_options, new_url0)
    else if truthy matched then
      let m := matched.getD ""
      -- `current_nav_options[matched_option]`: a missing key raises
      match dlookup current_nav_options m with
      | none => .error st
      | some u =>
        let st := { st with link_history := st.link_history ++ [u] }
        let (st, s, links) := quickSummarizeS env st u
        .ok (st, s, links, some u)
    else
      .ok (st, "I'm not sure what you want to do. You can:\n1. Navigate to a section: "
            ++ String.intercalate ", " (dkeys current_nav_options)
            ++ "\n2. Ask for specific information on this page",
           current_nav_options, new_url0)

/-- The non-URL branch of `agent_response` (lines 429-526) with the
trailing options block and the catch-all handler. -/
def textTurn (env : Env) (st : Summarizer) (user_input : String) :
    Summarizer × RespDict × Option String :=
  match dispatch env (preDispatch env st).1 user_input st.link_history.getLast?
      (preDispatch env st).2.2
      (matchUserIntent env.gen user_input (preDispatch env st).2.2) with
  | .error st' => (st', ⟨turnApology⟩, none)
  | .ok (st, cs, nav, nu) => finalize st cs nav nu

/-- `agent_response` (src/summarize.py lines 416-542). -/
def agentResponse (env : Env) (st : Summarizer) (user_input : String) :
    Summarizer × RespDict × Option String :=
  if is_url user_input then urlTurn env st user_input
  else textTurn env st user_input

/-! ## Helper lemmas -/

theorem dmem_mem_dkeys {m : NavMap} {k : String} (h : dmem m k = true) :
    k ∈ dkeys m := by
  simp only [dmem, List.any_eq_true, decide_eq_true_eq] at h
  obtain ⟨p, hp, he⟩ := h
  simp only [dkeys, List.mem_map]
  exact ⟨p, hp, he⟩

/-! ## Claim theorems -/

/-- C6: for every utterance containing an exit keyword (respectively: a
back keyword and no exit keyword), `_match_user_intent` resolves to
EXIT (respectively BACK) for *every* completion capability `gen`,
including one that always raises: the keyword decision precedes and
never consults the service. -/
theorem intent_exit_back_pure_keyword (gen : String → Except String GenResponse)
    (user_input : String) (opts : NavMap) :
    (hasKeyword user_input exitWords = true →
       matchUserIntent gen user_input opts = some "EXIT") ∧
    (hasKeyword user_input exitWords = false →
     hasKeyword user_input backWords = true →
       matchUserIntent gen user_input opts = some "BACK") := by
  constructor
  · intro h
    simp [matchUserIntent, h]
  · intro h1 h2
    simp [matchUserIntent, h1, h2]

/-- Witness for C6: a service stubbed to always raise still resolves
"please exit" to EXIT and "go back" to BACK. -/
theorem intent_exit_back_pure_keyword_witness :
    matchUserIntent (fun _ => .error "service down") "please exit" [] = some "EXIT" ∧
    matchUserIntent (fun _ => .error "service down") "go back" [] = some "BACK" :=
  ⟨(intent_exit_back_pure_keyword (fun _ => .error "service down") "please exit" []).1
     (by decide),
   (intent_exit_back_pure_keyword (fun _ => .error "service down") "go back" []).2
     (by decide) (by decide)⟩

/-- C8: keyword intent matching is substring-based, not word-based:
any utterance whose lowercased text contains an exit word as a
substring resolves to EXIT, otherwise a back-word substring resolves to
BACK, in both cases for every completion capability (so before any
completion call); in particular "extend" (which contains "end")
resolves to EXIT and "feedback" (which contains "back") to BACK. -/
theorem intent_keyword_substring (gen : String → Except String GenResponse)
    (opts : NavMap) :
    (∀ u, (exitWords.any fun w => strContains (pyLower u) w) = true →
        matchUserIntent gen u opts = some "EXIT") ∧
    (∀ u, (exitWords.any fun w => strContains (pyLower u) w) = false →
          (backWords.any fun w => strContains (pyLower u) w) = true →
        matchUserIntent gen u opts = some "BACK") ∧
    matchUserIntent gen "extend my stay" opts = some "EXIT" ∧
    matchUserIntent gen "feedback" opts = some "BACK" := by
  refine ⟨fun u h => by simp [matchUserIntent, hasKeyword, h],
          fun u h1 h2 => by simp [matchUserIntent, hasKeyword, h1, h2],
          ?_, ?_⟩
  · have h1 : hasKeyword "extend my stay" exitWords = true := by decide
    simp [matchUserIntent, h1]
  · have h2 : hasKeyword "feedback" exitWords = false := by decide
    have h3 : hasKeyword "feedback" backWords = true := by decide
    simp [matchUserIntent, h2, h3]

/-- Witness for C8 at a concrete utterance and service. -/
theorem intent_keyword_substring_witness :
    matchUserIntent (fun _ => Except.ok ⟨"NONE", "r"⟩) "quit now" [] = some "EXIT" :=
  (intent_keyword_substring (fun _ => Except.ok ⟨"NONE", "r"⟩) []).1 "quit now" (by decide)

/-- C4: intent resolution never yields a navigation label outside the
available-labels set: every `some` result is either one of the seven
fixed intent tags or a key of `available_options`; and when the
classification call answers NAVIGATION but the cleaned output of the
second, label-constrained call is not an available key (for example the
literal "none" or arbitrary text), the resolution degrades to `None`. -/
theorem nav_label_never_out_of_set (gen : String → Except String GenResponse)
    (user_input : String) (opts : NavMap) :
    (∀ m, matchUserIntent gen user_input opts = some m →
        m ∈ (["EXIT", "BACK", "INFO_REQUEST", "BOOKMARK", "LIST_BOOKMARKS",
              "GO_TO_BOOKMARK", "SWITCH_WEBSITE"] : List String) ∨ m ∈ dkeys opts) ∧
    (∀ r1 r2, hasKeyword user_input exitWords = false →
        hasKeyword user_input backWords = false →
        gen (classifyPrompt user_input opts) = .ok r1 →
        pyUpper (pyTrim r1.text) = "NAVIGATION" →
        gen (navPrompt user_input opts) = .ok r2 →
        dmem opts (cleanNavMatch r2.text) = false →
        matchUserIntent gen user_input opts = none) := by
  constructor
  · intro m h
    unfold matchUserIntent at h
    by_cases h1 : hasKeyword user_input exitWords
    · simp [h1] at h
      subst h; left; simp
    · simp only [h1, if_false, Bool.false_eq_true] at h
      by_cases h2 : hasKeyword user_input backWords
      · simp [h2] at h
        subst h; left; simp
      · simp only [h2, if_false, Bool.false_eq_true] at h
        cases hg : gen (classifyPrompt user_input opts) with
        | error e => rw [hg] at h; simp at h
        | ok resp =>
          rw [hg] at h
          simp only at h
          by_cases hi : pyUpper (pyTrim resp.text) = "INFO_REQUEST"
          · simp [hi] at h
            subst h; left; simp
          · simp only [hi, if_false] at h
            by_cases hn : pyUpper (pyTrim resp.text) = "NAVIGATION"
            · simp only [hn, if_true] at h
              cases hg2 : gen (navPrompt user_input opts) with
              | error e => rw [hg2] at h; simp at h
              | ok nresp =>
                rw [hg2] at h
                simp only at h
                by_cases hd : dmem opts (cleanNavMatch nresp.text)
                · simp [hd] at h
                  subst h
                  exact Or.inr (dmem_mem_dkeys hd)
                · simp [hd] at h
            · simp only [hn, if_false] at h
              by_cases hl : pyUpper (pyTrim resp.text) ∈
                  (["BOOKMARK", "LIST_BOOKMARKS", "GO_TO_BOOKMARK",
                    "SWITCH_WEBSITE"] : List String)
              · simp only [hl, if_true, Option.some.injEq] at h
                subst h
                left
                simp only [List.mem_cons, List.mem_singleton] at hl ⊢
                tauto
              · simp [hl] at h
  · intro r1 r2 h1 h2 h3 h4 h5 h6
    simp [matchUserIntent, h1, h2, h3, h4, h5, h6]

/-- Witness for C4: with available labels `{Home}`, a NAVIGATION
classification whose constrained match answers "Contact" resolves to
`None`. -/
theorem nav_label_never_out_of_set_witness :
    matchUserIntent
      (fun p => if p = classifyPrompt "see contact" [("Home", "https://h.com")]
                then Except.ok ⟨"NAVIGATION", "r"⟩ else Except.ok ⟨"Contact", "r"⟩)
      "see contact" [("Home", "https://h.com")] = none :=
  (nav_label_never_out_of_set
      (fun p => if p = classifyPrompt "see contact" [("Home", "https://h.com")]
                then Except.ok ⟨"NAVIGATION", "r"⟩ else Except.ok ⟨"Contact", "r"⟩)
      "see contact" [("Home", "https://h.com")]).2
    ⟨"NAVIGATION", "r"⟩ ⟨"Contact", "r"⟩
    (by decide) (by decide) (by rw [if_pos rfl]) (by decide)
    (by rw [if_neg (by decide)]) (by decide)

theorem extractElements_error {r : Renderer} {sel : String}
    {f : Element → Except String (Option α)} {t : α → Bool}
    (h : ∃ e, r.queryAll sel = .error e) : extractElements r sel f t = [] := by
  obtain ⟨e, he⟩ := h
  simp [extractElements, he]

theorem contentLoop_none {r : Renderer} (h : ∀ sel, r.queryOne sel = .ok none) :
    ∀ l, contentLoop r l = .ok "" := by
  intro l
  induction l with
  | nil => rfl
  | cons a l ih => simp [contentLoop, h a, ih]

/-- C3: page extraction never raises.  For every renderer behaviour the
`except` handler yields the fixed "Could not load page" digest when the
`try` body raises (the only raise points are browser startup and the
unguarded content `query_selector` calls), the body's digest otherwise;
and when every DOM query times out or finds nothing while the page
object is alive, every field degrades to its default: title
"Unknown Title", no navLinks, no headings, empty main text. -/
theorem quick_extract_never_raises (r : Renderer) (url : String) :
    (∀ e, quickExtractBody r url = Except.error e →
        quickExtract r url = ⟨"Could not load page", [], [], ""⟩) ∧
    (∀ d, quickExtractBody r url = Except.ok d → quickExtract r url = d) ∧
    (r.browserRes = Except.ok () →
     (∃ e, r.titleRes = Except.error e) →
     (∀ sel, ∃ e, r.queryAll sel = Except.error e) →
     (∀ sel, r.queryOne sel = Except.ok none) →
     quickExtract r url = ⟨"Unknown Title", [], [], ""⟩) := by
  refine ⟨?_, ?_, ?_⟩
  · intro e h
    simp [quickExtract, h]
  · intro d h
    simp [quickExtract, h]
  · intro hb ht hqa hqo
    obtain ⟨et, htt⟩ := ht
    have hnav : navLinksOf r url = [] := by
      unfold navLinksOf navSelectors
      simp [extractElements_error (hqa _)]
    simp [quickExtract, quickExtractBody, hb, htt, safeExtract, hnav,
          extractElements_error (hqa _), contentLoop_none hqo, pyTake]
    rfl

/-- Witness for C3: the all-raising renderer yields the
"Could not load page" digest, the all-timeout renderer the
"Unknown Title" one. -/
theorem quick_extract_never_raises_witness :
    quickExtract ⟨.error "boom", .error "boom", .error "boom",
        fun _ => .error "boom", fun _ => .error "boom"⟩ "https://x.com"
      = ⟨"Could not load page", [], [], ""⟩ ∧
    quickExtract ⟨.ok (), .error "timeout", .error "timeout",
        fun _ => .error "timeout", fun _ => .ok none⟩ "https://x.com"
      = ⟨"Unknown Title", [], [], ""⟩ :=
  ⟨(quick_extract_never_raises
      ⟨.error "boom", .error "boom", .error "boom",
        fun _ => .error "boom", fun _ => .error "boom"⟩ "https://x.com").1
      "boom" rfl,
   (quick_extract_never_raises
      ⟨.ok (), .error "timeout", .error "timeout",
        fun _ => .error "timeout", fun _ => .ok none⟩ "https://x.com").2.2
      rfl ⟨"timeout", rfl⟩ (fun _ => ⟨"timeout", rfl⟩) (fun _ => rfl)⟩

/-! ## Concrete fixtures for counterexamples and witnesses -/

/-- A benign renderer: the page loads, the DOM is empty. -/
def plainRenderer : Renderer :=
  ⟨.ok (), .ok (), .ok "Example Site", fun _ => .ok [], fun _ => .ok none⟩

/-- A renderer exposing exactly one navigation link. -/
def linkedRenderer : Renderer :=
  { browserRes := .ok ()
    gotoRes := .ok ()
    titleRes := .ok "Example Site"
    queryAll := fun sel =>
      if sel = "nav a[href]" then .ok [⟨.ok (some "Docs"), .ok (some "/docs"), .ok none⟩]
      else .ok []
    queryOne := fun _ => .ok none }

/-- An environment that classifies every utterance as BOOKMARK. -/
def envBookmark : Env :=
  { gen := fun p =>
      if strContains p "Classify" then .ok ⟨"BOOKMARK", "r"⟩
      else .ok ⟨"A dog site.", "r"⟩
    renderer := fun _ => plainRenderer }

/-! ## State-preservation lemmas -/

theorem preDispatch_fields (env : Env) (st : Summarizer) :
    (preDispatch env st).1.link_history = st.link_history ∧
    (preDispatch env st).1.bookmarks = st.bookmarks ∧
    (preDispatch env st).1.current_title = st.current_title := by
  unfold preDispatch quickSummarizeS
  split <;> exact ⟨rfl, rfl, rfl⟩

theorem preDispatch_history {env : Env} {st : Summarizer} :
    (preDispatch env st).1.link_history = st.link_history :=
  (preDispatch_fields env st).1

theorem preDispatch_bookmarks {env : Env} {st : Summarizer} :
    (preDispatch env st).1.bookmarks = st.bookmarks :=
  (preDispatch_fields env st).2.1

theorem preDispatch_title {env : Env} {st : Summarizer} :
    (preDispatch env st).1.current_title = st.current_title :=
  (preDispatch_fields env st).2.2

theorem quickSummarizeS_history {env : Env} {st : Summarizer} {url : String} :
    (quickSummarizeS env st url).1.link_history = st.link_history := rfl

theorem quickSummarizeS_bookmarks {env : Env} {st : Summarizer} {url : String} :
    (quickSummarizeS env st url).1.bookmarks = st.bookmarks := rfl

theorem finalize_fst {st : Summarizer} {cs : String} {nav : NavMap}
    {nu : Option String} : (finalize st cs nav nu).1 = st := by
  unfold finalize appendOptionsBlock
  by_cases h : (!nav.isEmpty && strContains cs "summary") = true
  · simp [h]
  · simp [h]

theorem finalize_clean {st : Summarizer} {cs : String} {nav : NavMap}
    {nu : Option String} (h : strContains cs "summary" = false) :
    finalize st cs nav nu = (st, ⟨cs⟩, nu) := by
  unfold finalize appendOptionsBlock
  simp [h]

theorem finalize_endgame (st0 : Summarizer) (stq : Summarizer) (cs : String)
    (nav : NavMap) (nu : Option String)
    (hq : stq.link_history = st0.link_history) :
    (finalize stq cs nav nu).1.link_history = st0.link_history ∧
    ((finalize stq cs nav nu).2.2 = nu ∨
     ((finalize stq cs nav nu).2.1 = ⟨turnApology⟩ ∧
      (finalize stq cs nav nu).2.2 = none)) := by
  unfold finalize appendOptionsBlock
  by_cases h : (!nav.isEmpty && strContains cs "summary") = true
  · simp [h, hq]
  · simp [h, hq]

/-! ## C5 -/

/-- Counterexample to C5: with a page loaded and `current_title` unset,
a BOOKMARK intent *does* mutate the bookmarks (storing the URL under
the `None` key) and reports success, instead of failing and leaving the
mapping unchanged. -/
theorem bookmark_without_title_counterexample :
    (agentResponse envBookmark ⟨["https://a.com"], none, [], 0⟩ "save this page").1.bookmarks
      = [(none, "https://a.com")] ∧
    (agentResponse envBookmark ⟨["https://a.com"], none, [], 0⟩ "save this page").2.1
      = ⟨"Bookmark saved!"⟩ := by
  constructor <;> rfl

/-- C5 amended: the BOOKMARK branch guards only on whether a page is
loaded (`if not new_url`), not on `current_title`.  With no (truthy)
page it fails with "No page to bookmark!" and leaves the bookmarks
unchanged; with a page loaded it stores
`bookmarks[current_title] = cur` — even when `current_title` is unset,
under the `None` key — and reports "Bookmark saved!". -/
theorem bookmark_guards_only_on_page (env : Env) (st : Summarizer)
    (user_input : String) (rc : GenResponse)
    (hurl : is_url user_input = false)
    (hex : hasKeyword user_input exitWords = false)
    (hbk : hasKeyword user_input backWords = false)
    (hc : env.gen (classifyPrompt user_input (preDispatch env st).2.2) = .ok rc)
    (hrc : pyUpper (pyTrim rc.text) = "BOOKMARK") :
    (truthy st.link_history.getLast? = false →
       (agentResponse env st user_input).1.bookmarks = st.bookmarks ∧
       (agentResponse env st user_input).2.1 = ⟨"No page to bookmark!"⟩) ∧
    (∀ u, st.link_history.getLast? = some u → u ≠ "" →
       (agentResponse env st user_input).1.bookmarks
         = dinsert st.bookmarks st.current_title u ∧
       (agentResponse env st user_input).2.1 = ⟨"Bookmark saved!"⟩) := by
  have hm : matchUserIntent env.gen user_input (preDispatch env st).2.2 = some "BOOKMARK" := by
    simp [matchUserIntent, hex, hbk, hc, hrc]
  have hpre := preDispatch_fields env st
  have hs1 : strContains "No page to bookmark!" "summary" = false := by decide
  have hs2 : strContains "Bookmark saved!" "summary" = false := by decide
  simp only [agentResponse, hurl, Bool.false_eq_true, if_false]
  constructor
  · intro htr
    unfold textTurn
    rw [hm]
    simp [dispatch, htr, finalize_clean hs1, preDispatch_bookmarks]
  · intro u hlast hu
    unfold textTurn
    rw [hm]
    simp [dispatch, hlast, truthy, hu, finalize_clean hs2,
          preDispatch_bookmarks, preDispatch_title]

/-- Witness for C5-amended, exercising both branches. -/
theorem bookmark_guards_only_on_page_witness :
    (agentResponse envBookmark ⟨[], none, [], 0⟩ "save this page").1.bookmarks = [] ∧
    (agentResponse envBookmark ⟨[], none, [], 0⟩ "save this page").2.1
      = ⟨"No page to bookmark!"⟩ ∧
    (agentResponse envBookmark ⟨["https://a.com"], some "A", [], 0⟩ "save this page").1.bookmarks
      = [(some "A", "https://a.com")] :=
  have h1 := (bookmark_guards_only_on_page envBookmark ⟨[], none, [], 0⟩
      "save this page" ⟨"BOOKMARK", "r"⟩ (by decide) (by decide) (by decide)
      rfl (by decide)).1 rfl
  have h2 := (bookmark_guards_only_on_page envBookmark ⟨["https://a.com"], some "A", [], 0⟩
      "save this page" ⟨"BOOKMARK", "r"⟩ (by decide) (by decide) (by decide)
      rfl (by decide)).2 "https://a.com" rfl (by decide)
  ⟨h1.1, h1.2, h2.1⟩

/-! ## C2 -/

/-- An environment whose classifier always answers NONE (the BACK turns
below resolve by keyword before reaching it). -/
def envPlain : Env :=
  { gen := fun p =>
      if strContains p "Classify" then .ok ⟨"NONE", "r"⟩
      else .ok ⟨"A dog site.", "r"⟩
    renderer := fun _ => plainRenderer }

/-- Counterexample to C2: a BACK turn with history `[A, B]` leaves the
history of length 2 completely unchanged — it does not pop an entry —
while still returning `A` (the second-to-last entry) as the turn's
URL.  The claim's "removes exactly one entry" would leave length 1. -/
theorem back_does_not_pop_counterexample :
    (agentResponse envPlain ⟨["https://a.com", "https://b.com"], none, [], 0⟩ "go back").1.link_history
      = ["https://a.com", "https://b.com"] ∧
    ¬ (agentResponse envPlain ⟨["https://a.com", "https://b.com"], none, [], 0⟩ "go back").1.link_history.length = 1 ∧
    (agentResponse envPlain ⟨["https://a.com", "https://b.com"], none, [], 0⟩ "go back").2.2
      = some "https://a.com" := by
  refine ⟨rfl, by decide, rfl⟩

/-- C2 amended: BACK with history length ≤ 1 leaves the history
unchanged and responds "You're already on the first page!"; with
length > 1 it also leaves the history unchanged (the source reads
`link_history[-2]` but never pops) and returns that second-to-last
entry as the turn's URL — unless the trailing options block's type
error fires, in which case the turn returns the fixed apology with no
URL (and the history still unchanged). -/
theorem back_returns_previous_without_pop (env : Env) (st : Summarizer)
    (user_input : String)
    (hurl : is_url user_input = false)
    (hex : hasKeyword user_input exitWords = false)
    (hbk : hasKeyword user_input backWords = true) :
    (st.link_history.length ≤ 1 →
       (agentResponse env st user_input).1.link_history = st.link_history ∧
       (agentResponse env st user_input).2.1 = ⟨"You're already on the first page!"⟩) ∧
    (st.link_history.length > 1 →
       (agentResponse env st user_input).1.link_history = st.link_history ∧
       ((agentResponse env st user_input).2.2
           = some (st.link_history.getD (st.link_history.length - 2) "") ∨
        ((agentResponse env st user_input).2.1 = ⟨turnApology⟩ ∧
         (agentResponse env st user_input).2.2 = none))) := by
  have hm : matchUserIntent env.gen user_input (preDispatch env st).2.2 = some "BACK" := by
    simp [matchUserIntent, hex, hbk]
  have hpre := preDispatch_fields env st
  have hs1 : strContains "You're already on the first page!" "summary" = false := by decide
  simp only [agentResponse, hurl, Bool.false_eq_true, if_false]
  constructor
  · intro hlen
    have hlen' : ¬ 1 < st.link_history.length := by omega
    unfold textTurn
    rw [hm]
    simp [dispatch, hlen', finalize_clean hs1, preDispatch_history]
  · intro hlen
    have hgt : (preDispatch env st).1.link_history.length > 1 := by
      rw [preDispatch_history]; exact hlen
    unfold textTurn
    rw [hm]
    simp only [dispatch, hgt, if_true, reduceCtorEq, reduceIte, Option.some.injEq,
      String.reduceEq, if_false, Bool.false_eq_true]
    rw [preDispatch_history]
    exact finalize_endgame st _ _ _ _
      (by rw [quickSummarizeS_history, preDispatch_history])

/-- Witness for C2-amended, exercising both the no-op branch and the
length-2 branch. -/
theorem back_returns_previous_without_pop_witness :
    (agentResponse envPlain ⟨["https://a.com"], none, [], 0⟩ "go back").1.link_history
      = ["https://a.com"] ∧
    (agentResponse envPlain ⟨["https://a.com"], none, [], 0⟩ "go back").2.1
      = ⟨"You're already on the first page!"⟩ ∧
    (agentResponse envPlain ⟨["https://a.com", "https://b.com"], none, [], 0⟩ "back").1.link_history
      = ["https://a.com", "https://b.com"] :=
  have h1 := (back_returns_previous_without_pop envPlain ⟨["https://a.com"], none, [], 0⟩
      "go back" (by decide) (by decide) (by decide)).1 (by decide)
  have h2 := (back_returns_previous_without_pop envPlain
      ⟨["https://a.com", "https://b.com"], none, [], 0⟩
      "back" (by decide) (by decide) (by decide)).2 (by decide)
  ⟨h1.1, h1.2, h2.1⟩

/-! ## C1 -/

/-- A renderer whose page shows the given title and nothing else. -/
def titledRenderer (title : String) : Renderer :=
  ⟨.ok (), .ok (), .ok title, fun _ => .ok [], fun _ => .ok none⟩

/-- An environment in which the page's content differs between the
first render and every later one (the title changes from "A" to "B"),
so the summary prompt — and with it the generated summary — changes. -/
def envChanging : Env :=
  { gen := fun p =>
      if strContains p "Title: A " then .ok ⟨"Alpha site.", "r"⟩
      else .ok ⟨"Beta site.", "r"⟩
    renderer := fun n => if n = 0 then titledRenderer "A" else titledRenderer "B" }

/-- Counterexample to C1: there is no summary cache.  Calling
`agent_response` twice with the same URL re-renders both times; when
the underlying page changed in between, the two returned summary texts
differ, contradicting cache idempotence. -/
theorem summary_cache_counterexample :
    (agentResponse envChanging ⟨[], none, [], 0⟩ "https://x.com").2.1
      = ⟨"Alpha site."⟩ ∧
    (agentResponse envChanging
        (agentResponse envChanging ⟨[], none, [], 0⟩ "https://x.com").1
        "https://x.com").2.1 = ⟨"Beta site."⟩ ∧
    ¬ (agentResponse envChanging ⟨[], none, [], 0⟩ "https://x.com").2.1
      = (agentResponse envChanging
          (agentResponse envChanging ⟨[], none, [], 0⟩ "https://x.com").1
          "https://x.com").2.1 := by
  refine ⟨rfl, rfl, by decide⟩

/-- C1 amended: for every well-formed absolute URL U, `agent_response`
with input U pushes U onto the history and returns a summary computed
by re-rendering the page: the render counter advances on *every* such
call — `quick_summarize` keeps no URL-keyed cache, so a repeat call
re-renders and need not return identical text when the page changed. -/
theorem url_turn_pushes_and_rerenders (env : Env) (st : Summarizer) (u : String)
    (h : is_url u = true) :
    (agentResponse env st u).1.link_history = st.link_history ++ [u] ∧
    (agentResponse env st u).1.renders = st.renders + 1 := by
  simp only [agentResponse, h, if_true]
  unfold urlTurn
  constructor
  · rw [finalize_fst, quickSummarizeS_history]
  · rw [finalize_fst]
    rfl

/-- Witness for C1-amended at a concrete URL turn. -/
theorem url_turn_pushes_and_rerenders_witness :
    (agentResponse envPlain ⟨[], none, [], 0⟩ "https://a.com").1.link_history
      = ["https://a.com"] ∧
    (agentResponse envPlain ⟨[], none, [], 0⟩ "https://a.com").1.renders = 1 := by
  simpa using url_turn_pushes_and_rerenders envPlain ⟨[], none, [], 0⟩
    "https://a.com" (by decide)

/-! ## C7 -/

/-- An environment over a page with one navigation link, whose
generated summary does not contain the substring "summary". -/
def envDogs : Env :=
  { gen := fun p =>
      if strContains p "Classify" then .ok ⟨"NONE", "r"⟩
      else .ok ⟨"A nice site about dogs.", "r"⟩
    renderer := fun _ => linkedRenderer }

/-- The same page, but the generated summary contains the substring
"summary". -/
def envSummaryWord : Env :=
  { gen := fun p =>
      if strContains p "Classify" then .ok ⟨"NONE", "r"⟩
      else .ok ⟨"A summary of dogs.", "r"⟩
    renderer := fun _ => linkedRenderer }

/-- C7 (bug exhibit): the trailing options block never appends a
section list.  On a page with a non-empty navigation map, a turn whose
summary text lacks the substring "summary" returns that text
*unchanged* (no "Some sections: ..." suffix); and a turn whose summary
text contains "summary" aborts with the catch-all apology, because the
block indexes the string `current_summary` with `"summary"` — a
`TypeError`.  The `current_summary["summary"]` code path that would
append the section list is unreachable. -/
theorem sections_never_appended_bug :
    (quickSummarizeWith envDogs.gen linkedRenderer "https://x.com").2
      = [("Docs", "https://x.com/docs")] ∧
    agentResponse envDogs ⟨[], none, [], 0⟩ "https://x.com"
      = (⟨["https://x.com"], none, [], 1⟩, ⟨"A nice site about dogs."⟩,
         some "https://x.com") ∧
    agentResponse envSummaryWord ⟨[], none, [], 0⟩ "https://x.com"
      = (⟨["https://x.com"], none, [], 1⟩, ⟨turnApology⟩, none) := by
  refine ⟨rfl, rfl, rfl⟩

/-! ## C9: history is append-only -/

/-- The session state at the end of a dispatch, whether the branch
returned normally or raised. -/
def exState : Except Summarizer (Summarizer × String × NavMap × Option String) → Summarizer
  | .error s => s
  | .ok (s, _, _, _) => s

theorem urlTurn_history (env : Env) (st : Summarizer) (u : String) :
    (urlTurn env st u).1.link_history = st.link_history ++ [u] := by
  unfold urlTurn
  rw [finalize_fst, quickSummarizeS_history]

theorem finalize_newurl {st : Summarizer} {cs : String} {nav : NavMap}
    {nu : Option String} :
    (finalize st cs nav nu).2.2 = nu ∨ (finalize st cs nav nu).2.2 = none := by
  unfold finalize appendOptionsBlock
  by_cases h : (!nav.isEmpty && strContains cs "summary") = true
  · simp [h]
  · simp [h]

theorem urlTurn_newurl (env : Env) (st : Summarizer) (u : String) :
    (urlTurn env st u).2.2 = some u ∨ (urlTurn env st u).2.2 = none := by
  unfold urlTurn
  exact finalize_newurl

theorem is_url_ne_empty {u : String} (h : is_url u = true) : u ≠ "" := by
  intro he
  subst he
  exact absurd h (by decide)

theorem findWebsite_history (env : Env) (st : Summarizer) (p : String) :
    ∃ t, (findWebsite env st p).1.link_history = st.link_history ++ t := by
  unfold findWebsite
  cases hg : env.gen (sitePrompt p) with
  | error e => exact ⟨[], by simp⟩
  | ok resp =>
    by_cases hu : is_url (pyTrim resp.text)
    · simp only [hu, Bool.true_eq_false, not_true_eq_false, if_false, reduceIte]
      cases ht : env.gen (fwTitlePrompt (pyTrim resp.text)
          (urlTurn env st (pyTrim resp.text)).2.1.summary) with
      | error e =>
        exact ⟨[pyTrim resp.text], by simp [ht, urlTurn_history]⟩
      | ok tr =>
        exact ⟨[pyTrim resp.text], by simp [ht, urlTurn_history]⟩
    · exact ⟨[], by simp [hu]⟩

theorem dispatch_extends (env : Env) (st : Summarizer) (user_input : String)
    (nu0 : Option String) (opts : NavMap) (m : Option String) :
    ∃ t, (exState (dispatch env st user_input nu0 opts m)).link_history
      = st.link_history ++ t := by
  unfold dispatch
  by_cases h1 : m = some "EXIT"
  · exact ⟨[], by simp [h1, exState]⟩
  simp only [h1, if_false]
  by_cases h2 : m = some "BOOKMARK"
  · by_cases htr : truthy nu0 <;>
      exact ⟨[], by simp [h2, htr, exState]⟩
  simp only [h2, if_false]
  by_cases h3 : m = some "LIST_BOOKMARKS"
  · by_cases hb : st.bookmarks.isEmpty <;>
      exact ⟨[], by simp [h3, hb, exState]⟩
  simp only [h3, if_false]
  by_cases h4 : m = some "GO_TO_BOOKMARK"
  · cases hg : env.gen (bkTitlePrompt user_input st.bookmarks) with
    | error e => exact ⟨[], by simp [h4, hg, exState]⟩
    | ok tr => exact ⟨[], by simp [h4, hg, exState, respInBookmarks]⟩
  simp only [h4, if_false]
  by_cases h5 : m = some "SWITCH_WEBSITE"
  · cases hg : env.gen (websitePrompt user_input) with
    | error e => exact ⟨[], by simp [h5, hg, exState]⟩
    | ok wresp =>
      obtain ⟨t, htw⟩ := findWebsite_history env st (pyTrim wresp.text)
      rcases hfw : findWebsite env st (pyTrim wresp.text) with ⟨st2, s2, fu, ob⟩
      rw [hfw] at htw
      have htw' : st2.link_history = st.link_history ++ t := htw
      by_cases hsc : ob = false ∧ truthy fu = true
      · refine ⟨t ++ [fu.getD ""], ?_⟩
        simp [h5, hg, hfw, hsc, exState, quickSummarizeS, htw']
      · refine ⟨t, ?_⟩
        simp [h5, hg, hfw, hsc, exState, htw']
  simp only [h5, if_false]
  by_cases h6 : m = some "BACK"
  · by_cases hl : st.link_history.length > 1
    · exact ⟨[], by simp [h6, hl, exState, quickSummarizeS]⟩
    · exact ⟨[], by simp [h6, hl, exState]⟩
  simp only [h6, if_false]
  by_cases h7 : m = some "INFO_REQUEST"
  · exact ⟨[], by simp [h7, exState, getSpecificInfoS]⟩
  simp only [h7, if_false]
  by_cases h8 : truthy m
  · simp only [h8, if_true]
    cases hl : dlookup opts (m.getD "") with
    | none => exact ⟨[], by simp [hl, exState]⟩
    | some u => exact ⟨[u], by simp [hl, exState, quickSummarizeS]⟩
  · exact ⟨[], by simp [h8, exState]⟩

/-- C9: the history stack is append-only.  For every environment,
session state and utterance, the `link_history` before a call to
`agent_response` is a prefix of the `link_history` after it — no
dispatch branch (including BACK) ever removes or replaces an entry. -/
theorem history_append_only (env : Env) (st : Summarizer) (user_input : String) :
    ∃ t, (agentResponse env st user_input).1.link_history
      = st.link_history ++ t := by
  unfold agentResponse
  by_cases h : is_url user_input
  · exact ⟨[user_input], by simp [h, urlTurn_history]⟩
  · simp only [h, Bool.false_eq_true, if_false]
    obtain ⟨t, ht⟩ := dispatch_extends env (preDispatch env st).1 user_input
      st.link_history.getLast? (preDispatch env st).2.2
      (matchUserIntent env.gen user_input (preDispatch env st).2.2)
    rw [preDispatch_history] at ht
    refine ⟨t, ?_⟩
    unfold textTurn
    cases hd : dispatch env (preDispatch env st).1 user_input
        st.link_history.getLast? (preDispatch env st).2.2
        (matchUserIntent env.gen user_input (preDispatch env st).2.2) with
    | error st' =>
      rw [hd] at ht
      exact ht
    | ok r =>
      obtain ⟨st2, cs, nav, nu⟩ := r
      rw [hd] at ht
      rw [finalize_fst]
      exact ht

/-! ## C10 -/

theorem findWebsite_success {env : Env} {st st2 : Summarizer} {p s u : String}
    (h : findWebsite env st p = (st2, s, some u, false)) :
    st2.link_history = st.link_history ++ [u] := by
  unfold findWebsite at h
  cases hg : env.gen (sitePrompt p) with
  | error e => rw [hg] at h; simp at h
  | ok resp =>
    rw [hg] at h
    by_cases hu2 : is_url (pyTrim resp.text)
    · simp only [hu2, Bool.true_eq_false, not_true_eq_false, if_false, reduceIte] at h
      cases ht : env.gen (fwTitlePrompt (pyTrim resp.text)
          (urlTurn env st (pyTrim resp.text)).2.1.summary) with
      | error e => rw [ht] at h; simp at h
      | ok tr =>
        rw [ht] at h
        simp only [Prod.mk.injEq] at h
        obtain ⟨h1, _, h3, _⟩ := h
        rcases urlTurn_newurl env st (pyTrim resp.text) with hn | hn
        · rw [hn] at h3
          obtain rfl : pyTrim resp.text = u := by
            simpa using h3
          rw [← h1]
          exact urlTurn_history env st (pyTrim resp.text)
        · rw [hn] at h3
          simp at h3
    · simp [hu2] at h

/-- C10: in a SWITCH_WEBSITE turn in which `find_website` succeeds with
a (truthy) URL `u`, `u` is appended to the history exactly twice: once
by the nested `agent_response` call inside `find_website`, and once
more by the SWITCH_WEBSITE dispatch branch itself. -/
theorem switch_website_double_append (env : Env) (st st2 : Summarizer)
    (user_input s u : String) (rc rw : GenResponse)
    (hurl : is_url user_input = false)
    (hex : hasKeyword user_input exitWords = false)
    (hbk : hasKeyword user_input backWords = false)
    (hc : env.gen (classifyPrompt user_input (preDispatch env st).2.2) = .ok rc)
    (hrc : pyUpper (pyTrim rc.text) = "SWITCH_WEBSITE")
    (hw : env.gen (websitePrompt user_input) = .ok rw)
    (hfw : findWebsite env (preDispatch env st).1 (pyTrim rw.text)
      = (st2, s, some u, false))
    (hu : u ≠ "") :
    st2.link_history = st.link_history ++ [u] ∧
    (agentResponse env st user_input).1.link_history
      = st.link_history ++ [u, u] := by
  have hm : matchUserIntent env.gen user_input (preDispatch env st).2.2
      = some "SWITCH_WEBSITE" := by
    simp [matchUserIntent, hex, hbk, hc, hrc]
  have h1 : st2.link_history = st.link_history ++ [u] := by
    rw [findWebsite_success hfw, preDispatch_history]
  refine ⟨h1, ?_⟩
  simp only [agentResponse, hurl, Bool.false_eq_true, if_false]
  unfold textTurn
  rw [hm]
  simp [dispatch, hw, hfw, truthy, hu, finalize_fst, quickSummarizeS_history, h1]

/-- An environment realizing a successful SWITCH_WEBSITE turn. -/
def envSwitch : Env :=
  { gen := fun p =>
      if strContains p "Classify" then .ok ⟨"SWITCH_WEBSITE", "r"⟩
      else if strContains p "Extract the website name" then .ok ⟨"shop", "r"⟩
      else if strContains p "Find a relevant website URL" then .ok ⟨"https://shop.com", "r"⟩
      else if strContains p "Extract the title of the webpage" then .ok ⟨"Shop", "r"⟩
      else .ok ⟨"A shop.", "r"⟩
    renderer := fun _ => plainRenderer }

/-- Witness for C10 at a concrete switch-website turn. -/
theorem switch_website_double_append_witness :
    (agentResponse envSwitch ⟨[], none, [], 0⟩ "switch please").1.link_history
      = ["https://shop.com", "https://shop.com"] := by
  simpa using (switch_website_double_append envSwitch ⟨[], none, [], 0⟩
    ⟨["https://shop.com"], some "Shop", [], 1⟩ "switch please" "A shop."
    "https://shop.com" ⟨"SWITCH_WEBSITE", "r"⟩ ⟨"shop", "r"⟩
    (by decide) (by decide) (by decide) rfl (by decide) rfl rfl (by decide)).2

end GenAI
